import Mathlib

/-!
Verification of the VBS analysis repository's decision-pipeline engine and the
predicate bodies found under `src/`.  The RAPIDO engine itself (`arbol.h`,
`cutflow.h`, `looper.h`) is not part of the excerpt, so its data model and the
traversal algorithm are modelled from the specification; every predicate body
and graph-construction call is translated from the repository sources
(`src/analysis/studies/vbswh.h`, `src/analysis/studies/vbswh/main.cc`,
`src/analysis/include/vbsvvhjets/collections.h`).
-/

/-- Four-momentum record; the embedding keeps the accessors used by the cuts
(`pt`, `eta`, `phi`, `mass`) as rational fields. -/
structure P4 where
  pt : ℚ
  eta : ℚ
  phi : ℚ
  mass : ℚ
deriving DecidableEq

/-- Tagged value type for the two typed stores.  Covers every branch/global
type declared in the sources in scope: int, double, bool, LorentzVector, and
the vector variants used by the global store. -/
inductive Val where
  | vInt (n : Int)
  | vDouble (q : ℚ)
  | vBool (b : Bool)
  | vP4 (p : P4)
  | vInts (l : List Int)
  | vDoubles (l : List ℚ)
  | vP4s (l : List P4)
deriving DecidableEq

/-- One declared output-row field: name, declared default, current value. -/
structure Branch where
  name : String
  dflt : Val
  val : Val
deriving DecidableEq

/-- Modelled from the spec: the Output Row Store (`Arbol`), a name→(typed
value, typed default) mapping plus the output table into which `fill` appends
one row per ACCEPTed record.  `arbol.h` is not part of the excerpt. -/
structure Arbol where
  branches : List Branch
  rows : List (List (String × Val))
deriving DecidableEq

/-- Modelled from the spec: declaring a branch installs the declared default
as the initial value (fields are "typed default-initialized"). -/
def Arbol.newBranch (a : Arbol) (name : String) (dflt : Val) : Arbol :=
  { a with branches := a.branches ++ [⟨name, dflt, dflt⟩] }

/-- Modelled from the spec: `resetBranches` restores every declared default at
the start of every record; values are not carried over. -/
def Arbol.resetBranches (a : Arbol) : Arbol :=
  { a with branches := a.branches.map fun b => { b with val := b.dflt } }

/-- Modelled from the spec: reading a leaf; `none` models the fatal
unknown-name/type error. -/
def Arbol.getLeaf (a : Arbol) (name : String) : Option Val :=
  (a.branches.find? fun b => b.name == name).map (·.val)

/-- Modelled from the spec: writing an existing slot overwrites its current
value for the current record only. -/
def Arbol.setLeaf (a : Arbol) (name : String) (v : Val) : Arbol :=
  { a with branches := a.branches.map fun b =>
      if b.name == name then { b with val := v } else b }

/-- The Output Row Store's current values, as one prospective output row. -/
def Arbol.currentRow (a : Arbol) : List (String × Val) :=
  a.branches.map fun b => (b.name, b.val)

/-- Modelled from the spec: `fill` appends the current values as one row to
the output table. -/
def Arbol.fill (a : Arbol) : Arbol :=
  { a with rows := a.rows ++ [a.currentRow] }

/-- An arbol with no declared branches and an empty output table. -/
def arbolEmpty : Arbol := ⟨[], []⟩

/-- One named intermediate variable; `none` is the unset state. -/
structure GlobalVar where
  name : String
  val : Option Val
deriving DecidableEq

/-- Modelled from the spec: the Named Variable Store (`cutflow.globals`), a
per-record mapping from declared names to typed values.  `utilities.h` is not
part of the excerpt. -/
structure Globals where
  vars : List GlobalVar
deriving DecidableEq

/-- Modelled from the spec: slots are declared once, initially unset. -/
def Globals.newVar (g : Globals) (name : String) : Globals :=
  ⟨g.vars ++ [⟨name, none⟩]⟩

/-- Modelled from the spec: `resetVars` returns every slot to the empty/unset
state at the start of every record. -/
def Globals.resetVars (g : Globals) : Globals :=
  ⟨g.vars.map fun x => { x with val := none }⟩

/-- Modelled from the spec: reading a variable; `none` models both the unset
state and the fatal unknown-name error. -/
def Globals.getVal (g : Globals) (name : String) : Option Val :=
  (g.vars.find? fun x => x.name == name).bind (·.val)

/-- Modelled from the spec: writing a variable for the current record. -/
def Globals.setVal (g : Globals) (name : String) (v : Val) : Globals :=
  ⟨g.vars.map fun x => if x.name == name then { x with val := some v } else x⟩

/-- A globals store with no declared variables. -/
def globalsEmpty : Globals := ⟨[]⟩

/-- A sequence of `setLeaf` writes applied in order, modelling everything a
record's predicates may have written into the row store. -/
def applyWrites (a : Arbol) (ws : List (String × Val)) : Arbol :=
  ws.foldl (fun a' w => a'.setLeaf w.1 w.2) a

/-- A node's behavior: its predicate (which may read/write both stores and may
raise the fatal per-record errors of §7, modelled as `Except`) and its weight
contribution (default `1`). -/
structure CutImpl (σ : Type) where
  eval : σ → Except String (σ × Bool)
  weight : σ → ℚ

/-- Modelled from the spec: a Decision Node — unique name, predicate, weight
contribution, successor-on-pass (`right`) and successor-on-fail (`left`);
`cutflow.h` is not part of the excerpt. -/
structure CutNode (σ : Type) where
  name : String
  impl : CutImpl σ
  right : Option String
  left : Option String

/-- Modelled from the spec: the Decision Graph, an owning container of nodes
indexed by unique name. -/
structure Cutflow (σ : Type) where
  nodes : List (CutNode σ)

def Cutflow.find? (cf : Cutflow σ) (name : String) : Option (CutNode σ) :=
  cf.nodes.find? fun c => c.name == name

/-- The structural skeleton of a graph: for each node, its name and the names
of its pass/fail successors (independent of the predicate bodies). -/
def Cutflow.edges (cf : Cutflow σ) : List (String × Option String × Option String) :=
  cf.nodes.map fun c => (c.name, c.right, c.left)

/-- What a single node visit recorded: the predicate passed (with the weight
contribution taken at that node), failed, or raised a fatal error. -/
inductive NodeOut where
  | pass (w : ℚ)
  | fall
  | err (msg : String)
deriving DecidableEq

/-- Traversal result: ACCEPT, REJECT, or a fatal per-record fault. -/
inductive Outcome where
  | accept
  | reject
  | fault (msg : String)
deriving DecidableEq

/-- The result of one record's traversal — outcome, cumulative weight, the
visited path in order, and the final store state. -/
structure RunResult (σ : Type) where
  outcome : Outcome
  weight : ℚ
  path : List (String × NodeOut)
  final : σ

/-- Modelled from the spec (§4.2): traversal from a named start node.  On pass
the cumulative weight is multiplied by the node's weight contribution and the
pass successor is taken (no successor: ACCEPT); on fail the fail successor is
taken (no successor: REJECT).  `fuel` bounds the walk so the function is
total; the graphs in scope are finite trees, so any fuel at least the node
count is enough. -/
def runFrom (cf : Cutflow σ) (fuel : Nat) (start : String) (s : σ) (w : ℚ) :
    RunResult σ :=
  match fuel with
  | 0 => ⟨.fault "out of fuel", w, [], s⟩
  | fuel + 1 =>
    match cf.find? start with
    | none => ⟨.fault "cut not found", w, [], s⟩
    | some cut =>
      match cut.impl.eval s with
      | .error msg => ⟨.fault msg, w, [(start, .err msg)], s⟩
      | .ok (s', passed) =>
        if passed then
          let wc := cut.impl.weight s'
          match cut.right with
          | some nxt =>
            let r := runFrom cf fuel nxt s' (w * wc)
            ⟨r.outcome, r.weight, (start, .pass wc) :: r.path, r.final⟩
          | none => ⟨.accept, w * wc, [(start, .pass wc)], s'⟩
        else
          match cut.left with
          | some nxt =>
            let r := runFrom cf fuel nxt s' w
            ⟨r.outcome, r.weight, (start, .fall) :: r.path, r.final⟩
          | none => ⟨.reject, w, [(start, .fall)], s'⟩

/-- Whether a traversal entered (attempted to evaluate) the named node. -/
def visits (r : RunResult σ) (name : String) : Bool :=
  r.path.any fun p => p.1 == name

/-- Product of the weight contributions recorded at exactly the visited nodes
whose predicate passed. -/
def passWeight : List (String × NodeOut) → ℚ
  | [] => 1
  | (_, .pass w) :: rest => w * passWeight rest
  | _ :: rest => passWeight rest

/-- Modelled from the spec (§4.2), as a big-step relation: `RunRel cf n s w r`
holds when a traversal of `cf` beginning at node `n` with store state `s` and
cumulative weight `w` can produce the result `r`. -/
inductive RunRel (cf : Cutflow σ) : String → σ → ℚ → RunResult σ → Prop where
  | notFound :
      cf.find? n = none →
      RunRel cf n s w ⟨.fault "cut not found", w, [], s⟩
  | evalErr :
      cf.find? n = some c → c.impl.eval s = .error m →
      RunRel cf n s w ⟨.fault m, w, [(n, .err m)], s⟩
  | passEnd :
      cf.find? n = some c → c.impl.eval s = .ok (s', true) → c.right = none →
      RunRel cf n s w
        ⟨.accept, w * c.impl.weight s', [(n, .pass (c.impl.weight s'))], s'⟩
  | passStep :
      cf.find? n = some c → c.impl.eval s = .ok (s', true) → c.right = some nxt →
      RunRel cf nxt s' (w * c.impl.weight s') r →
      RunRel cf n s w
        ⟨r.outcome, r.weight, (n, .pass (c.impl.weight s')) :: r.path, r.final⟩
  | failEnd :
      cf.find? n = some c → c.impl.eval s = .ok (s', false) → c.left = none →
      RunRel cf n s w ⟨.reject, w, [(n, .fall)], s'⟩
  | failStep :
      cf.find? n = some c → c.impl.eval s = .ok (s', false) → c.left = some nxt →
      RunRel cf nxt s' w r →
      RunRel cf n s w ⟨r.outcome, r.weight, (n, .fall) :: r.path, r.final⟩

/-- The per-record store state a traversal reads and mutates: the Output Row
Store and the Named Variable Store, passed by reference in the sources. -/
abbrev St := Arbol × Globals

/-- The driver's per-record mutable state in `main.cc`: the two stores plus
the looper's stop flag. -/
structure DriverState where
  arbol : Arbol
  globals : Globals
  stopped : Bool
deriving DecidableEq

/-- The event callback of `main.cc` (lines 61–75): in debug mode, after 10000
processed events, call `looper.stop()` and do nothing else; otherwise reset
both stores, run the cutflow from `"SelectVBSJetsMaxE"` on the freshly reset
stores, and `fill` one output row only if the traversal accepted.  The cutflow
traversal is abstracted as `runCutflow` taking the entry index and the reset
stores. -/
def processEntry (debug : Bool) (nProcessed : Nat)
    (runCutflow : Nat → St → St × Bool) (entry : Nat) (st : DriverState) :
    DriverState :=
  if debug && (nProcessed == 10000) then
    { st with stopped := true }
  else
    let s0 : St := (st.arbol.resetBranches, st.globals.resetVars)
    let out := runCutflow entry s0
    let a1 := out.1.1
    { arbol := if out.2 then a1.fill else a1
      globals := out.1.2
      stopped := st.stopped }

/-- Modelled from the spec: the Driver loop processes records strictly
sequentially and checks the stop flag between records, so `looper.stop()`
terminates the loop, not an individual traversal.  `looper.h` is not part of
the excerpt. -/
def runLooper (debug : Bool) (runCutflow : Nat → St → St × Bool) :
    List Nat → Nat → DriverState → DriverState
  | [], _, st => st
  | e :: es, n, st =>
    if st.stopped then st
    else runLooper debug runCutflow es (n + 1) (processEntry debug n runCutflow e st)

/-- `VBSWH::Analysis::initBranches` (vbswh.h lines 434–457): the branches the
VBSWH study declares, each with its declared default. -/
def vbswhInitBranches (a : Arbol) : Arbol :=
  ((((((((((((((((a.newBranch "lep_sf" (.vDouble (-999))
    ).newBranch "lep_sf_up" (.vDouble (-999))
    ).newBranch "lep_sf_dn" (.vDouble (-999))
    ).newBranch "lep_pdgID" (.vInt (-999))
    ).newBranch "lep_pt" (.vDouble (-999))
    ).newBranch "lep_eta" (.vDouble (-999))
    ).newBranch "lep_phi" (.vDouble (-999))
    ).newBranch "LT" (.vDouble (-999))
    ).newBranch "n_hbbjet_genbquarks" (.vInt (-999))
    ).newBranch "hbbjet_score" (.vDouble (-999))
    ).newBranch "hbbjet_pt" (.vDouble (-999))
    ).newBranch "hbbjet_eta" (.vDouble (-999))
    ).newBranch "hbbjet_phi" (.vDouble (-999))
    ).newBranch "hbbjet_mass" (.vDouble (-999))
    ).newBranch "hbbjet_msoftdrop" (.vDouble (-999))
    ).newBranch "ST" (.vDouble (-999))
    ).newBranch "passes_bveto" (.vBool false)

/-- Whether an optional successor name stays inside a set of node names. -/
def succIn (o : Option String) (S : List String) : Bool :=
  match o with
  | none => true
  | some x => S.contains x

/-- The record-source fields `Passes1LepTriggers` consults: the campaign year,
the data/simulation flag, and the six HLT trigger bits.  A trigger bit is
`none` when the field is absent from the source file, in which case the C++
accessor raises its absent-field `runtime_error`. -/
structure Nano where
  year : Int
  isData : Bool
  hltIsoMu24 : Option Bool
  hltIsoTkMu24 : Option Bool
  hltIsoMu27 : Option Bool
  hltEle27WPTightGsf : Option Bool
  hltEle32WPTightGsfL1DoubleEG : Option Bool
  hltEle32WPTightGsf : Option Bool
deriving DecidableEq

/-- The `try { passed = (passed || nt.HLT_X()); } catch (runtime_error) { }`
pattern of vbswh.h lines 57–69: when the bit is readable it is OR-ed in; when
the accessor raises, the error is swallowed and `passed` keeps its value. -/
def tryBit (passed : Bool) (bit : Option Bool) : Bool :=
  match bit with
  | some b => passed || b
  | none => passed

/-- `Passes1LepTriggers::passesMuonTriggers` (vbswh.h lines 51–72). -/
def passesMuonTriggers (nt : Nano) : Bool :=
  if nt.year == 2016 then tryBit (tryBit false nt.hltIsoMu24) nt.hltIsoTkMu24
  else if nt.year == 2017 then tryBit false nt.hltIsoMu27
  else if nt.year == 2018 then tryBit false nt.hltIsoMu24
  else false

/-- `Passes1LepTriggers::passesElecTriggers` (vbswh.h lines 74–94); in 2016
the muon-trigger fallback is OR-ed in outside any try block. -/
def passesElecTriggers (nt : Nano) : Bool :=
  if nt.year == 2016 then tryBit false nt.hltEle27WPTightGsf || passesMuonTriggers nt
  else if nt.year == 2017 then tryBit false nt.hltEle32WPTightGsfL1DoubleEG
  else if nt.year == 2018 then tryBit false nt.hltEle32WPTightGsf
  else false

/-- The same record with every absent trigger bit replaced by a present bit
reading `false` — the neutral default of the spec's recoverable-error rule. -/
def fillAbsentBits (nt : Nano) : Nano :=
  { nt with
    hltIsoMu24 := some (nt.hltIsoMu24.getD false)
    hltIsoTkMu24 := some (nt.hltIsoTkMu24.getD false)
    hltIsoMu27 := some (nt.hltIsoMu27.getD false)
    hltEle27WPTightGsf := some (nt.hltEle27WPTightGsf.getD false)
    hltEle32WPTightGsfL1DoubleEG := some (nt.hltEle32WPTightGsfL1DoubleEG.getD false)
    hltEle32WPTightGsf := some (nt.hltEle32WPTightGsf.getD false) }

/-- `Passes1LepTriggers::passesLepTriggers` (vbswh.h lines 96–129).  The
`file_name.Contains(...)` tests on the data path are carried as the three
Boolean flags they compute. -/
def passesLepTriggers (nt : Nano) (fileSingleMuon fileSingleElectron fileEGamma : Bool)
    (absLepPdgId : Nat) : Bool :=
  if !nt.isData then
    if absLepPdgId == 11 then passesElecTriggers nt
    else if absLepPdgId == 13 then passesMuonTriggers nt
    else true
  else
    if fileSingleMuon then passesMuonTriggers nt
    else if fileSingleElectron || fileEGamma then passesElecTriggers nt
    else passesMuonTriggers nt || passesElecTriggers nt

/-- `Passes1LepTriggers::evaluate` (vbswh.h lines 131–134): reads the
`lep_pdgID` leaf and calls `passesLepTriggers` on its absolute value. -/
def passes1LepTriggersEvaluate (nt : Nano)
    (fileSingleMuon fileSingleElectron fileEGamma : Bool) (s : St) :
    Except String (St × Bool) :=
  match s.1.getLeaf "lep_pdgID" with
  | some (.vInt k) =>
    .ok (s, passesLepTriggers nt fileSingleMuon fileSingleElectron fileEGamma k.natAbs)
  | _ => .error "lep_pdgID"

/-- `std::vector::at` with a C++ `int` index: a negative or out-of-bounds
index throws `out_of_range`. -/
def atIdx (l : List α) (i : Int) : Except String α :=
  if i < 0 then .error "out_of_range"
  else
    match l.get? i.toNat with
    | some x => .ok x
    | none => .error "out_of_range"

/-- `std::distance(v.begin(), std::max_element(v.begin(), v.end()))`: the
index of the first maximal element; `0` for the empty vector, because
`max_element` then returns `end() = begin()`. -/
def maxElementIdx : List ℚ → Nat
  | [] => 0
  | x :: xs =>
    let j := maxElementIdx xs
    match xs.get? j with
    | some y => if x < y then j + 1 else 0
    | none => 0

/-- One generator-level particle, with the fields the Hbb gen-matching loop
reads (vbswh.h lines 177–188). -/
structure GenPart where
  pdgId : Int
  status : Int
  genPartIdxMother : Int
  p4 : P4
deriving DecidableEq

/-- The record-source fields `SelectHbbFatJet::evaluate` consults. -/
structure NtEvent where
  isData : Bool
  genParts : List GenPart

/-- Reading a `Doubles` global; any other content is the store's fatal
unknown-name/type error. -/
def getGlobalDoubles (g : Globals) (name : String) : Except String (List ℚ) :=
  match g.getVal name with
  | some (.vDoubles l) => .ok l
  | _ => .error name

/-- Reading a `LorentzVectors` global. -/
def getGlobalP4s (g : Globals) (name : String) : Except String (List P4) :=
  match g.getVal name with
  | some (.vP4s l) => .ok l
  | _ => .error name

/-- The gen-matching loop of vbswh.h lines 177–188: count status-23 b quarks
(whose mother is not itself a b) within `deltaR < 0.8` of the chosen jet.
The `GenPart_pdgId().at(genPartIdxMother)` access faults on an out-of-range
mother index exactly as `.at` does. -/
def countGenBQuarks (deltaR : P4 → P4 → ℚ) (all : List GenPart) (best : P4) :
    List GenPart → Except String Int
  | [] => .ok 0
  | g :: rest =>
    if g.pdgId.natAbs != 5 then countGenBQuarks deltaR all best rest
    else if g.status != 23 then countGenBQuarks deltaR all best rest
    else
      match atIdx all g.genPartIdxMother with
      | .error m => .error m
      | .ok mom =>
        if mom.pdgId.natAbs == 5 then countGenBQuarks deltaR all best rest
        else
          match countGenBQuarks deltaR all best rest with
          | .error m => .error m
          | .ok c => .ok (if deltaR best g.p4 < 0.8 then c + 1 else c)

/-- The tail of `SelectHbbFatJet::evaluate` after the `best_hbbjet_i < 0`
guard (vbswh.h lines 173–212): fetch the chosen jet's four-momentum, count
gen-level b quarks, store the jet in the variable store and its observables
in the row store, and report the state in which the cut returns `true`.
Store reads that the C++ performs inline in `setLeaf` arguments are fetched
up front; this reorders nothing on the fault-free path, and any fault aborts
the record either way. -/
def selectHbbFatJetFinish (deltaR : P4 → P4 → ℚ) (nt : NtEvent) (s : St)
    (bestIdx : Int) (bestScore : ℚ) : Except String St :=
  match getGlobalP4s s.2 "good_fatjet_p4s" with
  | .error m => .error m
  | .ok p4s =>
    match atIdx p4s bestIdx with
    | .error m => .error m
    | .ok bestP4 =>
      match (if nt.isData then Except.ok 0
             else countGenBQuarks deltaR nt.genParts bestP4 nt.genParts) with
      | .error m => .error m
      | .ok nGenB =>
        match getGlobalDoubles s.2 "good_fatjet_masses" with
        | .error m => .error m
        | .ok masses =>
          match atIdx masses bestIdx with
          | .error m => .error m
          | .ok mass =>
            match getGlobalDoubles s.2 "good_fatjet_msoftdrops" with
            | .error m => .error m
            | .ok msoftdrops =>
              match atIdx msoftdrops bestIdx with
              | .error m => .error m
              | .ok msd =>
                match s.1.getLeaf "LT" with
                | some (.vDouble lt) =>
                  let g' := s.2.setVal "hbbjet_p4" (.vP4 bestP4)
                  let a1 := s.1.setLeaf "n_hbbjet_genbquarks" (.vInt nGenB)
                  let a2 := a1.setLeaf "hbbjet_score" (.vDouble bestScore)
                  let a3 := a2.setLeaf "hbbjet_pt" (.vDouble bestP4.pt)
                  let a4 := a3.setLeaf "hbbjet_eta" (.vDouble bestP4.eta)
                  let a5 := a4.setLeaf "hbbjet_phi" (.vDouble bestP4.phi)
                  let a6 := a5.setLeaf "hbbjet_mass" (.vDouble mass)
                  let a7 := a6.setLeaf "hbbjet_msoftdrop" (.vDouble msd)
                  let a8 := a7.setLeaf "ST" (.vDouble (lt + bestP4.pt))
                  .ok (a8, g')
                | _ => .error "LT"

/-- `SelectHbbFatJet::evaluate` (vbswh.h lines 148–213): pick the fat jet
with the best ParticleNet score (`good_fatjet_xbbtags` when `use_md`,
`good_fatjet_hbbtags` otherwise), guard on a negative best index, then run
the tail above. -/
def selectHbbFatJetEvaluate (deltaR : P4 → P4 → ℚ) (useMd : Bool)
    (nt : NtEvent) (s : St) : Except String (St × Bool) :=
  match (if useMd then getGlobalDoubles s.2 "good_fatjet_xbbtags"
         else getGlobalDoubles s.2 "good_fatjet_hbbtags") with
  | .error m => .error m
  | .ok tags =>
    let bestIdx : Int := Int.ofNat (maxElementIdx tags)
    match atIdx tags bestIdx with
    | .error m => .error m
    | .ok bestScore =>
      if bestIdx < 0 then .ok (s, false)
      else
        match selectHbbFatJetFinish deltaR nt s bestIdx bestScore with
        | .error m => .error m
        | .ok s' => .ok (s', true)

/-- A `LambdaCut`: evaluate from the given closure, default weight `1`. -/
def lambdaCut (name : String) (f : St → Except String (St × Bool))
    (right left : Option String) : CutNode St :=
  ⟨name, ⟨f, fun _ => 1⟩, right, left⟩

/-- `NoLeptons` (collections.h lines 125–132): no veto leptons collected. -/
def noLeptonsEval (s : St) : Except String (St × Bool) :=
  match s.2.getVal "veto_lep_p4s" with
  | some (.vP4s l) => .ok (s, l.length == 0)
  | _ => .error "veto_lep_p4s"

/-- `Exactly3FatJets` (collections.h lines 139–141). -/
def exactly3FatJetsEval (s : St) : Except String (St × Bool) :=
  match s.1.getLeaf "n_fatjets" with
  | some (.vInt n) => .ok (s, n == 3)
  | _ => .error "n_fatjets"

/-- `Exactly2FatJets` (collections.h lines 217–219). -/
def exactly2FatJetsEval (s : St) : Except String (St × Bool) :=
  match s.1.getLeaf "n_fatjets" with
  | some (.vInt n) => .ok (s, n == 2)
  | _ => .error "n_fatjets"

/-- `AllMerged_ApplyAk4GlobalBVeto` (collections.h lines 161–163). -/
def applyAk4BVetoEval (s : St) : Except String (St × Bool) :=
  match s.1.getLeaf "passes_bveto" with
  | some (.vBool b) => .ok (s, b)
  | _ => .error "passes_bveto"

/-- `AllMerged_STGt1200` (collections.h lines 167–169). -/
def stGt1200Eval (s : St) : Except String (St × Bool) :=
  match s.1.getLeaf "ST" with
  | some (.vDouble q) => .ok (s, decide (q > 1200))
  | _ => .error "ST"

/-- `AllMerged_MjjGt500` / `SemiMerged_MjjGt500` (collections.h lines
173–175 and 249–251, identical bodies). -/
def mjjGt500Eval (s : St) : Except String (St × Bool) :=
  match s.1.getLeaf "M_jj" with
  | some (.vDouble q) => .ok (s, decide (q > 500))
  | _ => .error "M_jj"

/-- `AllMerged_detajjGt3` (collections.h lines 178–180). -/
def detajjGt3Eval (s : St) : Except String (St × Bool) :=
  match s.1.getLeaf "deta_jj" with
  | some (.vDouble q) => .ok (s, decide (abs q > 3))
  | _ => .error "deta_jj"

/-- `AllMerged_MjjGt600_detajjGt4` (collections.h lines 184–193). -/
def mjjGt600DetajjGt4Eval (s : St) : Except String (St × Bool) :=
  match s.1.getLeaf "M_jj", s.1.getLeaf "deta_jj" with
  | some (.vDouble m), some (.vDouble d) =>
    .ok (s, decide (m > 600) && decide (abs d > 4))
  | _, _ => .error "M_jj"

/-- `AllMerged_XbbGt0p9` (collections.h lines 195–197). -/
def xbbGt0p9Eval (s : St) : Except String (St × Bool) :=
  match s.1.getLeaf "hbbfatjet_score" with
  | some (.vDouble q) => .ok (s, decide (q > 0.9))
  | _ => .error "hbbfatjet_score"

/-- `AllMerged_XWqqGt0p7` (collections.h lines 199–209), translated verbatim:
both conjuncts of the lambda read `ld_vqqfatjet_score`; the trailing fat
jet's score is never read. -/
def allMergedXWqqEval (s : St) : Except String (St × Bool) :=
  match s.1.getLeaf "ld_vqqfatjet_score" with
  | some (.vDouble q) => .ok (s, decide (q > 0.7) && decide (q > 0.7))
  | _ => .error "ld_vqqfatjet_score"

/-- `AllMerged_STGt1500` (collections.h lines 210–212). -/
def stGt1500Eval (s : St) : Except String (St × Bool) :=
  match s.1.getLeaf "ST" with
  | some (.vDouble q) => .ok (s, decide (q > 1500))
  | _ => .error "ST"

/-- `SemiMerged_Geq4Jets` (collections.h lines 231–233). -/
def geq4JetsEval (s : St) : Except String (St × Bool) :=
  match s.1.getLeaf "n_jets" with
  | some (.vInt n) => .ok (s, decide (n ≥ 4))
  | _ => .error "n_jets"

/-- The behaviors of the VBSVVHJets cuts whose class bodies are outside the
excerpt (`vbsvvhjets/cuts.h`, `core/cuts.h`): kept abstract, since the graph
claims hold for any predicate/weight behavior of these nodes. -/
structure VVHUnknowns where
  bookkeeping : CutImpl St
  saveSyst : CutImpl St
  eventFilters : CutImpl St
  passesTriggers : CutImpl St
  selectLeptons : CutImpl St
  selectFatJets : CutImpl St
  amSelectVVH : CutImpl St
  amSelectJets : CutImpl St
  amSelectVBS : CutImpl St
  amSaveVars : CutImpl St
  smSelectVVH : CutImpl St
  smSelectJets : CutImpl St
  smSelectVBS : CutImpl St
  smSelectVJets : CutImpl St
  smSaveVars : CutImpl St

/-- `VBSVVHJets::Analysis::initCutflow` (collections.h lines 102–254): every
`setRoot`/`insert` call translated into the node table with its pass
(`Right`) and fail (`Left`) successors.  `Exactly3FatJets` is the only node
with both successors: its pass child opens the all-merged (3 fat jet)
channel, its fail child is `Exactly2FatJets`, which opens the semi-merged
channel. -/
def vbsvvhjetsCutflow (u : VVHUnknowns) : Cutflow St :=
  ⟨[⟨"Bookkeeping", u.bookkeeping, some "SaveSystWeights", none⟩,
    ⟨"SaveSystWeights", u.saveSyst, some "PassesEventFilters", none⟩,
    ⟨"PassesEventFilters", u.eventFilters, some "PassesTriggers", none⟩,
    ⟨"PassesTriggers", u.passesTriggers, some "SelectLeptons", none⟩,
    ⟨"SelectLeptons", u.selectLeptons, some "NoLeptons", none⟩,
    lambdaCut "NoLeptons" noLeptonsEval (some "SelectFatJets") none,
    ⟨"SelectFatJets", u.selectFatJets, some "Exactly3FatJets", none⟩,
    lambdaCut "Exactly3FatJets" exactly3FatJetsEval
      (some "AllMerged_SelectVVHFatJets") (some "Exactly2FatJets"),
    ⟨"AllMerged_SelectVVHFatJets", u.amSelectVVH, some "AllMerged_SelectJets", none⟩,
    ⟨"AllMerged_SelectJets", u.amSelectJets, some "AllMerged_SelectVBSJetsMaxE", none⟩,
    ⟨"AllMerged_SelectVBSJetsMaxE", u.amSelectVBS, some "AllMerged_SaveVariables", none⟩,
    ⟨"AllMerged_SaveVariables", u.amSaveVars, some "AllMerged_ApplyAk4GlobalBVeto", none⟩,
    lambdaCut "AllMerged_ApplyAk4GlobalBVeto" applyAk4BVetoEval
      (some "AllMerged_STGt1200") none,
    lambdaCut "AllMerged_STGt1200" stGt1200Eval (some "AllMerged_MjjGt500") none,
    lambdaCut "AllMerged_MjjGt500" mjjGt500Eval (some "AllMerged_detajjGt3") none,
    lambdaCut "AllMerged_detajjGt3" detajjGt3Eval
      (some "AllMerged_MjjGt600_detajjGt4") none,
    lambdaCut "AllMerged_MjjGt600_detajjGt4" mjjGt600DetajjGt4Eval
      (some "AllMerged_XbbGt0p9") none,
    lambdaCut "AllMerged_XbbGt0p9" xbbGt0p9Eval (some "AllMerged_XWqqGt0p7") none,
    lambdaCut "AllMerged_XWqqGt0p7" allMergedXWqqEval (some "AllMerged_STGt1500") none,
    lambdaCut "AllMerged_STGt1500" stGt1500Eval none none,
    lambdaCut "Exactly2FatJets" exactly2FatJetsEval
      (some "SemiMerged_SelectVVHFatJets") none,
    ⟨"SemiMerged_SelectVVHFatJets", u.smSelectVVH, some "SemiMerged_SelectJets", none⟩,
    ⟨"SemiMerged_SelectJets", u.smSelectJets, some "SemiMerged_Geq4Jets", none⟩,
    lambdaCut "SemiMerged_Geq4Jets" geq4JetsEval
      (some "SemiMerged_SelectVBSJetsMaxE") none,
    ⟨"SemiMerged_SelectVBSJetsMaxE", u.smSelectVBS, some "SemiMerged_SelectVJets", none⟩,
    ⟨"SemiMerged_SelectVJets", u.smSelectVJets, some "SemiMerged_SaveVariables", none⟩,
    ⟨"SemiMerged_SaveVariables", u.smSaveVars, some "SemiMerged_MjjGt500", none⟩,
    lambdaCut "SemiMerged_MjjGt500" mjjGt500Eval none none]⟩

/-- The node names of the all-merged (3 fat jet) sub-pipeline, rooted at the
pass child of `Exactly3FatJets`. -/
def amNames : List String :=
  ["AllMerged_SelectVVHFatJets", "AllMerged_SelectJets",
   "AllMerged_SelectVBSJetsMaxE", "AllMerged_SaveVariables",
   "AllMerged_ApplyAk4GlobalBVeto", "AllMerged_STGt1200",
   "AllMerged_MjjGt500", "AllMerged_detajjGt3",
   "AllMerged_MjjGt600_detajjGt4", "AllMerged_XbbGt0p9",
   "AllMerged_XWqqGt0p7", "AllMerged_STGt1500"]

/-- The node names of the semi-merged (2 fat jet) sub-pipeline, rooted at the
fail child of `Exactly3FatJets`. -/
def smNames : List String :=
  ["Exactly2FatJets", "SemiMerged_SelectVVHFatJets", "SemiMerged_SelectJets",
   "SemiMerged_Geq4Jets", "SemiMerged_SelectVBSJetsMaxE",
   "SemiMerged_SelectVJets", "SemiMerged_SaveVariables",
   "SemiMerged_MjjGt500"]

/-- The VBSVVHJets graph's skeleton, as a closed list of
(name, pass successor, fail successor) triples. -/
def vvhEdges : List (String × Option String × Option String) :=
  [("Bookkeeping", some "SaveSystWeights", none),
   ("SaveSystWeights", some "PassesEventFilters", none),
   ("PassesEventFilters", some "PassesTriggers", none),
   ("PassesTriggers", some "SelectLeptons", none),
   ("SelectLeptons", some "NoLeptons", none),
   ("NoLeptons", some "SelectFatJets", none),
   ("SelectFatJets", some "Exactly3FatJets", none),
   ("Exactly3FatJets", some "AllMerged_SelectVVHFatJets", some "Exactly2FatJets"),
   ("AllMerged_SelectVVHFatJets", some "AllMerged_SelectJets", none),
   ("AllMerged_SelectJets", some "AllMerged_SelectVBSJetsMaxE", none),
   ("AllMerged_SelectVBSJetsMaxE", some "AllMerged_SaveVariables", none),
   ("AllMerged_SaveVariables", some "AllMerged_ApplyAk4GlobalBVeto", none),
   ("AllMerged_ApplyAk4GlobalBVeto", some "AllMerged_STGt1200", none),
   ("AllMerged_STGt1200", some "AllMerged_MjjGt500", none),
   ("AllMerged_MjjGt500", some "AllMerged_detajjGt3", none),
   ("AllMerged_detajjGt3", some "AllMerged_MjjGt600_detajjGt4", none),
   ("AllMerged_MjjGt600_detajjGt4", some "AllMerged_XbbGt0p9", none),
   ("AllMerged_XbbGt0p9", some "AllMerged_XWqqGt0p7", none),
   ("AllMerged_XWqqGt0p7", some "AllMerged_STGt1500", none),
   ("AllMerged_STGt1500", none, none),
   ("Exactly2FatJets", some "SemiMerged_SelectVVHFatJets", none),
   ("SemiMerged_SelectVVHFatJets", some "SemiMerged_SelectJets", none),
   ("SemiMerged_SelectJets", some "SemiMerged_Geq4Jets", none),
   ("SemiMerged_Geq4Jets", some "SemiMerged_SelectVBSJetsMaxE", none),
   ("SemiMerged_SelectVBSJetsMaxE", some "SemiMerged_SelectVJets", none),
   ("SemiMerged_SelectVJets", some "SemiMerged_SaveVariables", none),
   ("SemiMerged_SaveVariables", some "SemiMerged_MjjGt500", none),
   ("SemiMerged_MjjGt500", none, none)]

/-- Traversal of the VBSVVHJets graph resumed at `Exactly3FatJets`, the node
where the fat-jet channels split; per the spec (§4.2, §9) resumption starts a
fresh walk with the weight seeded at 1. -/
def runVVHFrom (u : VVHUnknowns) (fuel : Nat) (s : St) : RunResult St :=
  runFrom (vbsvvhjetsCutflow u) fuel "Exactly3FatJets" s 1

/-- A cut behavior that always passes with weight 1, to instantiate the
abstract VBSVVHJets cuts on concrete runs. -/
def trivialImpl : CutImpl St := ⟨fun s => .ok (s, true), fun _ => 1⟩

/-- The VBSVVHJets graph with every out-of-excerpt cut instantiated to the
always-pass behavior. -/
def uTriv : VVHUnknowns :=
  ⟨trivialImpl, trivialImpl, trivialImpl, trivialImpl, trivialImpl,
   trivialImpl, trivialImpl, trivialImpl, trivialImpl, trivialImpl,
   trivialImpl, trivialImpl, trivialImpl, trivialImpl, trivialImpl⟩

/-- A record state whose `n_fatjets` leaf reads 1: it reaches the fat-jet
split with neither exactly three nor exactly two fat jets. -/
def sOneFatJet : St := (⟨[⟨"n_fatjets", .vInt (-999), .vInt 1⟩], []⟩, ⟨[]⟩)

/-- A traversal stub that accepts every record without touching the stores;
used to instantiate the driver-loop theorems on concrete inputs. -/
def run0 : Nat → St → St × Bool := fun _ s => (s, true)

/-- A driver state holding the freshly declared VBSWH stores. -/
def dsInit : DriverState := ⟨vbswhInitBranches arbolEmpty, globalsEmpty, false⟩

/-- A one-node decision graph over the unit store, for exercising the
traversal relation on a concrete run. -/
def cfUnit : Cutflow Unit :=
  ⟨[⟨"A", ⟨fun s => .ok (s, true), fun _ => 1⟩, none, none⟩]⟩

/-- A record source with no gen particles, and the zero separation. -/
def ntEmpty : NtEvent := ⟨false, []⟩

/-- A degenerate angular separation for concrete runs. -/
def dR0 : P4 → P4 → ℚ := fun _ _ => 0

/-- A store whose good-fatjet score list is declared but empty. -/
def sEmptyTags : St := (arbolEmpty, ⟨[⟨"good_fatjet_xbbtags", some (.vDoubles [])⟩]⟩)

/-- A store whose leading V→qq fat-jet score reads 4/5. -/
def sLdScore : St :=
  (⟨[⟨"ld_vqqfatjet_score", .vDouble (-999), .vDouble (4 / 5)⟩], []⟩, ⟨[]⟩)

/-- A 2018 simulation record with every trigger bit absent. -/
def ntSim : Nano := ⟨2018, false, none, none, none, none, none, none⟩

theorem resetBranches_setLeaf (a : Arbol) (n : String) (v : Val) :
    (a.setLeaf n v).resetBranches = a.resetBranches := by
  unfold Arbol.setLeaf Arbol.resetBranches
  simp only [List.map_map, Arbol.mk.injEq, and_true]
  refine List.map_congr_left fun b _ => ?_
  by_cases h : (b.name == n) = true <;> simp [h, Function.comp]

theorem resetBranches_applyWrites (a : Arbol) (ws : List (String × Val)) :
    (applyWrites a ws).resetBranches = a.resetBranches := by
  induction ws generalizing a with
  | nil => rfl
  | cons w ws ih =>
    simpa [applyWrites, resetBranches_setLeaf] using ih (a.setLeaf w.1 w.2)

theorem resetVars_setVal (g : Globals) (n : String) (v : Val) :
    (g.setVal n v).resetVars = g.resetVars := by
  unfold Globals.setVal Globals.resetVars
  simp only [List.map_map, Globals.mk.injEq]
  refine List.map_congr_left fun x _ => ?_
  by_cases h : (x.name == n) = true <;> simp [h, Function.comp]

theorem rows_setLeaf (a : Arbol) (n : String) (v : Val) :
    (a.setLeaf n v).rows = a.rows := rfl

theorem rows_resetBranches (a : Arbol) :
    a.resetBranches.rows = a.rows := rfl

theorem getLeaf_setLeaf_ne (a : Arbol) (n m : String) (v : Val)
    (h : (n == m) = false) :
    (a.setLeaf n v).getLeaf m = a.getLeaf m := by
  unfold Arbol.setLeaf Arbol.getLeaf
  induction a.branches with
  | nil => rfl
  | cons b l ih =>
    by_cases hb : (b.name == m) = true
    · have hbn : (b.name == n) = false := by
        rcases eq_of_beq hb with rfl
        simpa [BEq.comm] using h
      simp [hbn, List.find?, hb]
    · by_cases hn : (b.name == n) = true
      · simpa [List.find?, hn, hb, eq_of_beq hn ▸ h] using ih
      · simpa [List.find?, hn, hb] using ih

theorem path_closed (cf : Cutflow σ) (S : List String)
    (hS : ∀ e ∈ cf.edges, e.1 ∈ S → succIn e.2.1 S = true ∧ succIn e.2.2 S = true) :
    ∀ fuel n (s : σ) w, n ∈ S → ∀ p ∈ (runFrom cf fuel n s w).path, p.1 ∈ S := by
  intro fuel
  induction fuel with
  | zero => intro n s w _ p hp; simp [runFrom] at hp
  | succ fuel ih =>
    intro n s w hn p hp
    cases hfind : cf.find? n with
    | none => simp [runFrom, hfind] at hp
    | some cut =>
      have hfind' : List.find? (fun c => c.name == n) cf.nodes = some cut := hfind
      have hbeq := List.find?_some hfind'
      have hname : cut.name = n := by simpa using hbeq
      have hmem : cut ∈ cf.nodes := List.mem_of_find?_eq_some hfind'
      have hclosed := hS _ (List.mem_map_of_mem _ hmem) (hname ▸ hn)
      cases heval : cut.impl.eval s with
      | error msg =>
        simp only [runFrom, hfind, heval] at hp
        simp at hp
        subst hp
        simpa using hn
      | ok out =>
        obtain ⟨s', passed⟩ := out
        cases passed with
        | false =>
          cases hleft : cut.left with
          | none =>
            simp only [runFrom, hfind, heval, hleft] at hp
            simp at hp
            subst hp
            simpa using hn
          | some nxt =>
            simp only [runFrom, hfind, heval, hleft] at hp
            simp only [Bool.false_eq_true, if_false, List.mem_cons] at hp
            rcases hp with rfl | hp
            · simpa using hn
            · have hnxt : nxt ∈ S := by
                have h2 := hclosed.2
                rw [hleft] at h2
                simpa [succIn] using h2
              exact ih nxt s' w hnxt p hp
        | true =>
          cases hright : cut.right with
          | none =>
            simp only [runFrom, hfind, heval, hright] at hp
            simp at hp
            subst hp
            simpa using hn
          | some nxt =>
            simp only [runFrom, hfind, heval, hright] at hp
            simp only [if_true, List.mem_cons] at hp
            rcases hp with rfl | hp
            · simpa using hn
            · have hnxt : nxt ∈ S := by
                have h1 := hclosed.1
                rw [hright] at h1
                simpa [succIn] using h1
              exact ih nxt s' (w * cut.impl.weight s') hnxt p hp

theorem visits_start (cf : Cutflow σ) (fuel : Nat) (n : String) (s : σ) (w : ℚ)
    (hfind : (cf.find? n).isSome = true) :
    visits (runFrom cf (fuel + 1) n s w) n = true := by
  cases hf : cf.find? n with
  | none => rw [hf] at hfind; simp at hfind
  | some cut =>
    cases heval : cut.impl.eval s with
    | error msg => simp [runFrom, hf, heval, visits]
    | ok out =>
      obtain ⟨s', passed⟩ := out
      cases passed with
      | false => cases hleft : cut.left <;> simp [runFrom, hf, heval, hleft, visits]
      | true => cases hright : cut.right <;> simp [runFrom, hf, heval, hright, visits]

/-- C7: the cumulative weight a traversal yields equals the incoming seed
multiplied by the weight contributions recorded at exactly the visited nodes
whose predicate passed (and of no other node).  When the traversal starts at
the root, the seed slot is taken by the Bookkeeping node's contribution, which
always passes. -/
theorem runFrom_weight_eq (cf : Cutflow σ) (fuel : Nat) :
    ∀ n (s : σ) w,
      (runFrom cf fuel n s w).weight = w * passWeight (runFrom cf fuel n s w).path := by
  induction fuel with
  | zero => intro n s w; simp [runFrom, passWeight]
  | succ fuel ih =>
    intro n s w
    cases hfind : cf.find? n with
    | none => simp [runFrom, hfind, passWeight]
    | some cut =>
      cases heval : cut.impl.eval s with
      | error msg => simp [runFrom, hfind, heval, passWeight]
      | ok out =>
        obtain ⟨s', passed⟩ := out
        cases passed with
        | false =>
          cases hleft : cut.left with
          | none => simp [runFrom, hfind, heval, hleft, passWeight]
          | some nxt => simp [runFrom, hfind, heval, hleft, passWeight, ih]
        | true =>
          cases hright : cut.right with
          | none => simp [runFrom, hfind, heval, hright, passWeight]
          | some nxt =>
            simp [runFrom, hfind, heval, hright, passWeight, ih, mul_assoc]

/-- C6: traversal is deterministic — two runs of the big-step traversal
relation from the same start node with identical store contents, identical
seed, and the same graph (hence identical predicate behavior) produce the same
path, the same ACCEPT/REJECT outcome, and the same cumulative weight; nothing
outside the start node, the graph, and the store state influences the result. -/
theorem runRel_deterministic {σ : Type} {cf : Cutflow σ} {n : String} {s : σ}
    {w : ℚ} {r₁ r₂ : RunResult σ}
    (h₁ : RunRel cf n s w r₁) (h₂ : RunRel cf n s w r₂) : r₁ = r₂ := by
  induction h₁ generalizing r₂ with
  | notFound hf =>
    cases h₂ <;> simp_all
  | evalErr hf he =>
    cases h₂ <;> simp_all
  | passEnd hf he hr =>
    cases h₂ <;> simp_all
  | passStep hf he hr hrec ih =>
    cases h₂ with
    | notFound hf2 => simp_all
    | evalErr hf2 he2 => simp_all
    | passEnd hf2 he2 hr2 => simp_all
    | failEnd hf2 he2 hl2 => simp_all
    | failStep hf2 he2 hl2 hrec2 => simp_all
    | passStep hf2 he2 hr2 hrec2 =>
      rw [hf] at hf2
      obtain rfl := Option.some.injEq _ _ ▸ hf2.symm
      rw [he] at he2
      obtain ⟨rfl, -⟩ := Prod.mk.injEq _ _ _ _ ▸ (Except.ok.injEq _ _ ▸ he2.symm)
      rw [hr] at hr2
      obtain rfl := Option.some.injEq _ _ ▸ hr2.symm
      rw [ih hrec2]
  | failEnd hf he hl =>
    cases h₂ <;> simp_all
  | failStep hf he hl hrec ih =>
    cases h₂ with
    | notFound hf2 => simp_all
    | evalErr hf2 he2 => simp_all
    | passEnd hf2 he2 hr2 => simp_all
    | passStep hf2 he2 hr2 hrec2 => simp_all
    | failEnd hf2 he2 hl2 => simp_all
    | failStep hf2 he2 hl2 hrec2 =>
      rw [hf] at hf2
      obtain rfl := Option.some.injEq _ _ ▸ hf2.symm
      rw [he] at he2
      obtain ⟨rfl, -⟩ := Prod.mk.injEq _ _ _ _ ▸ (Except.ok.injEq _ _ ▸ he2.symm)
      rw [hl] at hl2
      obtain rfl := Option.some.injEq _ _ ▸ hl2.symm
      rw [ih hrec2]

/-- C1: in the event callback (main.cc lines 61–75), outside the debug-stop
branch, the output table after processing one record equals the table the
traversal left behind with exactly one row — the Output Row Store's current
values — appended when the traversal ACCEPTed, and with nothing appended when
it REJECTed.  The row store's contents are committed if and only if the
traversal returned true. -/
theorem processEntry_commits_iff_accept (debug : Bool) (nP : Nat)
    (runCutflow : Nat → St → St × Bool) (entry : Nat) (st : DriverState)
    (hstop : (debug && (nP == 10000)) = false)
    (hrows : ∀ e s, ((runCutflow e s).1.1).rows = s.1.rows) :
    (processEntry debug nP runCutflow entry st).arbol.rows =
      st.arbol.rows ++
        (if (runCutflow entry (st.arbol.resetBranches, st.globals.resetVars)).2
         then [((runCutflow entry (st.arbol.resetBranches, st.globals.resetVars)).1.1).currentRow]
         else []) := by
  unfold processEntry
  rw [hstop]
  simp only [Bool.false_eq_true, if_false]
  have hbase :
      ((runCutflow entry (st.arbol.resetBranches, st.globals.resetVars)).1.1).rows =
        st.arbol.rows := by
    rw [hrows entry (st.arbol.resetBranches, st.globals.resetVars)]
    exact rows_resetBranches st.arbol
  cases hpass : (runCutflow entry (st.arbol.resetBranches, st.globals.resetVars)).2 with
  | false => simpa [hpass] using hbase
  | true => simpa [hpass, Arbol.fill] using hbase

/-- C2: both per-record stores are reset before any predicate runs.
(1) After `resetBranches` every declared branch holds its declared default;
(2) after `resetVars` every declared variable is unset; (3) for the concrete
branch list declared by `VBSWH::Analysis::initBranches`, resetting after an
arbitrary sequence of per-record writes restores the freshly declared store
exactly; (4) in the event callback, outside the debug-stop branch, values
written into either store during a previous record are unobservable: the
callback's result is unchanged if the previous record's writes are dropped. -/
theorem stores_reset_before_run :
    (∀ a : Arbol, ∀ b ∈ a.resetBranches.branches, b.val = b.dflt) ∧
    (∀ g : Globals, ∀ x ∈ g.resetVars.vars, x.val = none) ∧
    (∀ base : Arbol, ∀ ws : List (String × Val),
      (applyWrites (vbswhInitBranches base) ws).resetBranches =
        (vbswhInitBranches base).resetBranches) ∧
    (∀ (debug : Bool) (nP : Nat) (runCutflow : Nat → St → St × Bool)
        (entry : Nat) (a : Arbol) (g : Globals) (stp : Bool)
        (nm nm2 : String) (v v2 : Val),
      (debug && (nP == 10000)) = false →
      processEntry debug nP runCutflow entry ⟨a.setLeaf nm v, g.setVal nm2 v2, stp⟩ =
        processEntry debug nP runCutflow entry ⟨a, g, stp⟩) := by
  refine ⟨?_, ?_, ?_, ?_⟩
  · intro a b hb
    unfold Arbol.resetBranches at hb
    simp only [List.mem_map] at hb
    obtain ⟨b0, -, rfl⟩ := hb
    rfl
  · intro g x hx
    unfold Globals.resetVars at hx
    simp only [List.mem_map] at hx
    obtain ⟨x0, -, rfl⟩ := hx
    rfl
  · intro base ws
    exact resetBranches_applyWrites (vbswhInitBranches base) ws
  · intro debug nP runCutflow entry a g stp nm nm2 v v2 hstop
    unfold processEntry
    rw [hstop]
    simp only [Bool.false_eq_true, if_false, resetBranches_setLeaf, resetVars_setVal]

/-- C3: the debug stop is the only early termination and it halts the driver
loop, not a traversal.  When the stop condition (debug mode and exactly 10000
processed events) holds, the callback only raises the stop flag: both stores
and the output table are untouched and no reset, traversal, or commit happens
— the result does not even depend on which traversal function is plugged in.
Once the flag is up, the driver loop processes no further record. -/
theorem debug_stop_halts_loop :
    (∀ (runA runB : Nat → St → St × Bool) (entry : Nat) (st : DriverState),
      processEntry true 10000 runA entry st = ⟨st.arbol, st.globals, true⟩ ∧
      processEntry true 10000 runA entry st = processEntry true 10000 runB entry st) ∧
    (∀ (debug : Bool) (runCutflow : Nat → St → St × Bool) (es : List Nat)
        (k : Nat) (st : DriverState),
      st.stopped = true → runLooper debug runCutflow es k st = st) := by
  constructor
  · intro runA runB entry st
    constructor
    · unfold processEntry
      simp
    · unfold processEntry
      simp
  · intro debug runCutflow es k st hstp
    cases es with
    | nil => rfl
    | cons e es => simp [runLooper, hstp]

theorem tryBit_fill (p : Bool) (o : Option Bool) :
    tryBit p (some (o.getD false)) = tryBit p o := by
  cases o <;> simp [tryBit]

/-- C4: absence of an optional trigger bit never escapes the trigger
predicates.  Both helpers are total Boolean functions of the record (the
catch block swallows the accessor's error), and an absent bit behaves exactly
like a present bit reading `false`: the result on any record equals the
result on the record with all absent bits replaced by `false`. -/
theorem trigger_absence_is_neutral (nt : Nano) :
    passesMuonTriggers nt = passesMuonTriggers (fillAbsentBits nt) ∧
    passesElecTriggers nt = passesElecTriggers (fillAbsentBits nt) := by
  constructor
  · simp [passesMuonTriggers, fillAbsentBits, tryBit_fill]
  · simp [passesElecTriggers, passesMuonTriggers, fillAbsentBits, tryBit_fill]

/-- C10: on simulation (`isData = false`), a selected lepton whose absolute
pdg id is neither 11 nor 13 passes the trigger cut unconditionally — the
`switch` default returns `true` before any trigger bit is consulted, so the
result is `true` for every configuration of trigger bits and file flags, and
`evaluate` returns `true` for every store whose `lep_pdgID` leaf is such an
id. -/
theorem simulation_other_pdgid_passes (nt : Nano)
    (fileSingleMuon fileSingleElectron fileEGamma : Bool) :
    (∀ absId : Nat, nt.isData = false → absId ≠ 11 → absId ≠ 13 →
      passesLepTriggers nt fileSingleMuon fileSingleElectron fileEGamma absId = true) ∧
    (∀ (s : St) (k : Int), nt.isData = false →
      s.1.getLeaf "lep_pdgID" = some (.vInt k) → k.natAbs ≠ 11 → k.natAbs ≠ 13 →
      passes1LepTriggersEvaluate nt fileSingleMuon fileSingleElectron fileEGamma s =
        .ok (s, true)) := by
  constructor
  · intro absId hd h11 h13
    simp [passesLepTriggers, hd, h11, h13]
  · intro s k hd hleaf h11 h13
    simp [passes1LepTriggersEvaluate, hleaf, passesLepTriggers, hd, h11, h13]

theorem maxElementIdx_lt_length (l : List ℚ) (h : l ≠ []) :
    maxElementIdx l < l.length := by
  cases l with
  | nil => exact absurd rfl h
  | cons x xs =>
    simp only [maxElementIdx]
    cases hg : xs.get? (maxElementIdx xs) with
    | none => simp
    | some y =>
      have hlt : maxElementIdx xs < xs.length := List.get?_eq_some.mp hg |>.1
      by_cases hc : x < y
      · simp only [if_pos hc, List.length_cons]
        omega
      · simp [hc]

/-- C8: `SelectHbbFatJet::evaluate` never returns `false`.  The best-score
index is a `std::distance` from `begin`, hence never negative, so the
`best_hbbjet_i < 0` guard is unreachable: every evaluation either returns
`true` or aborts the record with a store/`.at` fault.  In particular, on an
empty good-fatjet score list the cut does not fail gracefully — the
`.at(0)` access raises `out_of_range` instead. -/
theorem selectHbbFatJet_never_false (deltaR : P4 → P4 → ℚ) (useMd : Bool)
    (nt : NtEvent) (s : St) :
    (∀ s' : St, selectHbbFatJetEvaluate deltaR useMd nt s ≠ .ok (s', false)) ∧
    ((if useMd then s.2.getVal "good_fatjet_xbbtags"
      else s.2.getVal "good_fatjet_hbbtags") = some (.vDoubles []) →
      selectHbbFatJetEvaluate deltaR useMd nt s = .error "out_of_range") := by
  constructor
  · intro s'
    unfold selectHbbFatJetEvaluate
    cases h1 : (if useMd then getGlobalDoubles s.2 "good_fatjet_xbbtags"
                else getGlobalDoubles s.2 "good_fatjet_hbbtags") with
    | error m => simp
    | ok tags =>
      dsimp only
      have hge : ¬(Int.ofNat (maxElementIdx tags) < 0) := by
        simp
      cases h2 : atIdx tags (Int.ofNat (maxElementIdx tags)) with
      | error m => simp
      | ok bestScore =>
        dsimp only
        rw [if_neg hge]
        cases h3 : selectHbbFatJetFinish deltaR nt s (Int.ofNat (maxElementIdx tags)) bestScore with
        | error m => simp
        | ok s'' => simp
  · intro hemp
    cases useMd with
    | true =>
      simp only [if_true] at hemp
      simp [selectHbbFatJetEvaluate, getGlobalDoubles, hemp, maxElementIdx, atIdx]
    | false =>
      simp only [Bool.false_eq_true, if_false] at hemp
      simp [selectHbbFatJetEvaluate, getGlobalDoubles, hemp, maxElementIdx, atIdx]

/-- C9: the `AllMerged_XWqqGt0p7` cut's outcome depends only on the
`ld_vqqfatjet_score` leaf — it passes exactly when that score exceeds 0.7
(both conjuncts in the source read the leading score), and overwriting the
`tr_vqqfatjet_score` leaf with any value never changes the predicate's
result. -/
theorem xwqq_reads_only_leading_score :
    (∀ (s : St) (q : ℚ), s.1.getLeaf "ld_vqqfatjet_score" = some (.vDouble q) →
      allMergedXWqqEval s = .ok (s, decide (q > 0.7))) ∧
    (∀ (s : St) (v : Val),
      (allMergedXWqqEval (s.1.setLeaf "tr_vqqfatjet_score" v, s.2)).map (·.2) =
        (allMergedXWqqEval s).map (·.2)) := by
  constructor
  · intro s q h
    simp [allMergedXWqqEval, h]
  · intro s v
    have hne : (("tr_vqqfatjet_score" : String) == "ld_vqqfatjet_score") = false := by
      decide
    unfold allMergedXWqqEval
    rw [show ((s.1.setLeaf "tr_vqqfatjet_score" v, s.2) : St).1 =
          s.1.setLeaf "tr_vqqfatjet_score" v from rfl,
        getLeaf_setLeaf_ne s.1 _ _ v hne]
    cases s.1.getLeaf "ld_vqqfatjet_score" with
    | none => rfl
    | some val => cases val <;> rfl

theorem vbsvvhjets_edges_eq (u : VVHUnknowns) :
    (vbsvvhjetsCutflow u).edges = vvhEdges := rfl

theorem visits_false_of_closed (cf : Cutflow σ) (S : List String)
    (hS : ∀ e ∈ cf.edges, e.1 ∈ S → succIn e.2.1 S = true ∧ succIn e.2.2 S = true)
    (fuel : Nat) (n : String) (s : σ) (w : ℚ) (hn : n ∈ S) (m : String)
    (hm : m ∉ S) : visits (runFrom cf fuel n s w) m = false := by
  by_contra hv
  rw [Bool.not_eq_false] at hv
  unfold visits at hv
  obtain ⟨p, hp, hpe⟩ := List.any_eq_true.mp hv
  exact hm ((eq_of_beq hpe) ▸ path_closed cf S hS fuel n s w hn p hp)

theorem runFrom_step_pass (cf : Cutflow σ) (fuel : Nat) (n nxt : String)
    (c : CutNode σ) (s s' : σ) (w : ℚ)
    (hf : cf.find? n = some c) (he : c.impl.eval s = .ok (s', true))
    (hr : c.right = some nxt) :
    runFrom cf (fuel + 1) n s w =
      ⟨(runFrom cf fuel nxt s' (w * c.impl.weight s')).outcome,
       (runFrom cf fuel nxt s' (w * c.impl.weight s')).weight,
       (n, .pass (c.impl.weight s')) ::
         (runFrom cf fuel nxt s' (w * c.impl.weight s')).path,
       (runFrom cf fuel nxt s' (w * c.impl.weight s')).final⟩ := by
  simp [runFrom, hf, he, hr]

theorem runFrom_step_fail (cf : Cutflow σ) (fuel : Nat) (n nxt : String)
    (c : CutNode σ) (s s' : σ) (w : ℚ)
    (hf : cf.find? n = some c) (he : c.impl.eval s = .ok (s', false))
    (hl : c.left = some nxt) :
    runFrom cf (fuel + 1) n s w =
      ⟨(runFrom cf fuel nxt s' w).outcome,
       (runFrom cf fuel nxt s' w).weight,
       (n, .fall) :: (runFrom cf fuel nxt s' w).path,
       (runFrom cf fuel nxt s' w).final⟩ := by
  simp [runFrom, hf, he, hl]

theorem runFrom_fail_end (cf : Cutflow σ) (fuel : Nat) (n : String)
    (c : CutNode σ) (s s' : σ) (w : ℚ)
    (hf : cf.find? n = some c) (he : c.impl.eval s = .ok (s', false))
    (hl : c.left = none) :
    runFrom cf (fuel + 1) n s w = ⟨.reject, w, [(n, .fall)], s'⟩ := by
  simp [runFrom, hf, he, hl]

theorem visits_cons (r : RunResult σ) (o : Outcome) (wq : ℚ) (fin : σ)
    (x : String × NodeOut) (m : String) :
    visits (⟨o, wq, x :: r.path, fin⟩ : RunResult σ) m = ((x.1 == m) || visits r m) := by
  simp [visits]

/-- C5 (amended): in the VBSVVHJets graph, `Exactly3FatJets` has the
all-merged chain (entry `AllMerged_SelectVVHFatJets`) as its pass child and
`Exactly2FatJets` as its fail child.  A record reaching the split with an
integer `n_fatjets` leaf `k` enters the all-merged chain exactly when
`k = 3`, enters the `Exactly2FatJets` sub-pipeline exactly when `k ≠ 3`
(never both), and enters the semi-merged chain body
(`SemiMerged_SelectVVHFatJets`) exactly when `k = 2`; over any batch, the
all-merged entry count is the number of records with `n_fatjets = 3`, the
`Exactly2FatJets` entry count is the number with `n_fatjets ≠ 3`, and the
semi-merged body entry count is the number with `n_fatjets = 2`. -/
theorem vbsvvhjets_channel_split (u : VVHUnknowns) (f : Nat) :
    ("Exactly3FatJets", some "AllMerged_SelectVVHFatJets", some "Exactly2FatJets")
      ∈ (vbsvvhjetsCutflow u).edges ∧
    (∀ (s : St) (k : Int), s.1.getLeaf "n_fatjets" = some (.vInt k) →
      visits (runVVHFrom u (f + 3) s) "AllMerged_SelectVVHFatJets" = decide (k = 3) ∧
      visits (runVVHFrom u (f + 3) s) "Exactly2FatJets" = decide (k ≠ 3) ∧
      ¬(visits (runVVHFrom u (f + 3) s) "AllMerged_SelectVVHFatJets" = true ∧
        visits (runVVHFrom u (f + 3) s) "Exactly2FatJets" = true) ∧
      visits (runVVHFrom u (f + 3) s) "SemiMerged_SelectVVHFatJets" = decide (k = 2)) ∧
    (∀ L : List St, (∀ s ∈ L, ∃ k : Int, s.1.getLeaf "n_fatjets" = some (.vInt k)) →
      (L.countP fun s => visits (runVVHFrom u (f + 3) s) "AllMerged_SelectVVHFatJets") =
        (L.countP fun s => s.1.getLeaf "n_fatjets" == some (.vInt 3)) ∧
      (L.countP fun s => visits (runVVHFrom u (f + 3) s) "Exactly2FatJets") =
        (L.countP fun s => !(s.1.getLeaf "n_fatjets" == some (.vInt 3))) ∧
      (L.countP fun s => visits (runVVHFrom u (f + 3) s) "SemiMerged_SelectVVHFatJets") =
        (L.countP fun s => s.1.getLeaf "n_fatjets" == some (.vInt 2))) := by
  refine ⟨by rw [vbsvvhjets_edges_eq]; decide, ?_⟩
  have hSam : ∀ e ∈ (vbsvvhjetsCutflow u).edges, e.1 ∈ amNames →
      succIn e.2.1 amNames = true ∧ succIn e.2.2 amNames = true := by
    simp only [vbsvvhjets_edges_eq]
    decide
  have hSsm : ∀ e ∈ (vbsvvhjetsCutflow u).edges, e.1 ∈ smNames →
      succIn e.2.1 smNames = true ∧ succIn e.2.2 smNames = true := by
    simp only [vbsvvhjets_edges_eq]
    decide
  have hfind3 : (vbsvvhjetsCutflow u).find? "Exactly3FatJets" =
      some (lambdaCut "Exactly3FatJets" exactly3FatJetsEval
        (some "AllMerged_SelectVVHFatJets") (some "Exactly2FatJets")) := rfl
  have hfind2 : (vbsvvhjetsCutflow u).find? "Exactly2FatJets" =
      some (lambdaCut "Exactly2FatJets" exactly2FatJetsEval
        (some "SemiMerged_SelectVVHFatJets") none) := rfl
  have hpt : ∀ (s : St) (k : Int), s.1.getLeaf "n_fatjets" = some (.vInt k) →
      visits (runVVHFrom u (f + 3) s) "AllMerged_SelectVVHFatJets" = decide (k = 3) ∧
      visits (runVVHFrom u (f + 3) s) "Exactly2FatJets" = decide (k ≠ 3) ∧
      ¬(visits (runVVHFrom u (f + 3) s) "AllMerged_SelectVVHFatJets" = true ∧
        visits (runVVHFrom u (f + 3) s) "Exactly2FatJets" = true) ∧
      visits (runVVHFrom u (f + 3) s) "SemiMerged_SelectVVHFatJets" = decide (k = 2) := by
    intro s k hk
    by_cases h3 : k = 3
    · subst h3
      have he : (lambdaCut "Exactly3FatJets" exactly3FatJetsEval
          (some "AllMerged_SelectVVHFatJets") (some "Exactly2FatJets")).impl.eval s =
          .ok (s, true) := by
        simp [lambdaCut, exactly3FatJetsEval, hk]
      have hstep := runFrom_step_pass (vbsvvhjetsCutflow u) (f + 2) "Exactly3FatJets"
        "AllMerged_SelectVVHFatJets"
        (lambdaCut "Exactly3FatJets" exactly3FatJetsEval
          (some "AllMerged_SelectVVHFatJets") (some "Exactly2FatJets"))
        s s 1 hfind3 he rfl
      have hAMv : visits (runVVHFrom u (f + 3) s) "AllMerged_SelectVVHFatJets" = true := by
        unfold runVVHFrom
        rw [show f + 3 = (f + 2) + 1 from rfl, hstep, visits_cons,
          show (("Exactly3FatJets" : String) == "AllMerged_SelectVVHFatJets") = false from rfl,
          Bool.false_or]
        exact visits_start _ (f + 1) _ s _ rfl
      have hE2v : visits (runVVHFrom u (f + 3) s) "Exactly2FatJets" = false := by
        unfold runVVHFrom
        rw [show f + 3 = (f + 2) + 1 from rfl, hstep, visits_cons,
          show (("Exactly3FatJets" : String) == "Exactly2FatJets") = false from rfl,
          Bool.false_or]
        exact visits_false_of_closed _ amNames hSam (f + 2) _ s _ (by decide) _ (by decide)
      have hSMv : visits (runVVHFrom u (f + 3) s) "SemiMerged_SelectVVHFatJets" = false := by
        unfold runVVHFrom
        rw [show f + 3 = (f + 2) + 1 from rfl, hstep, visits_cons,
          show (("Exactly3FatJets" : String) == "SemiMerged_SelectVVHFatJets") = false from rfl,
          Bool.false_or]
        exact visits_false_of_closed _ amNames hSam (f + 2) _ s _ (by decide) _ (by decide)
      refine ⟨?_, ?_, ?_, ?_⟩
      · rw [hAMv]; decide
      · rw [hE2v]; decide
      · intro hc
        have hcc := hc.2
        rw [hE2v] at hcc
        exact absurd hcc (by decide)
      · rw [hSMv]; decide
    · have hkb : (k == 3) = false := by simp [h3]
      have he : (lambdaCut "Exactly3FatJets" exactly3FatJetsEval
          (some "AllMerged_SelectVVHFatJets") (some "Exactly2FatJets")).impl.eval s =
          .ok (s, false) := by
        simp [lambdaCut, exactly3FatJetsEval, hk, hkb]
      have hstep := runFrom_step_fail (vbsvvhjetsCutflow u) (f + 2) "Exactly3FatJets"
        "Exactly2FatJets"
        (lambdaCut "Exactly3FatJets" exactly3FatJetsEval
          (some "AllMerged_SelectVVHFatJets") (some "Exactly2FatJets"))
        s s 1 hfind3 he rfl
      have hAMv : visits (runVVHFrom u (f + 3) s) "AllMerged_SelectVVHFatJets" = false := by
        unfold runVVHFrom
        rw [show f + 3 = (f + 2) + 1 from rfl, hstep, visits_cons,
          show (("Exactly3FatJets" : String) == "AllMerged_SelectVVHFatJets") = false from rfl,
          Bool.false_or]
        exact visits_false_of_closed _ smNames hSsm (f + 2) _ s _ (by decide) _ (by decide)
      have hE2v : visits (runVVHFrom u (f + 3) s) "Exactly2FatJets" = true := by
        unfold runVVHFrom
        rw [show f + 3 = (f + 2) + 1 from rfl, hstep, visits_cons,
          show (("Exactly3FatJets" : String) == "Exactly2FatJets") = false from rfl,
          Bool.false_or]
        exact visits_start _ (f + 1) _ s _ rfl
      have hSMv : visits (runVVHFrom u (f + 3) s) "SemiMerged_SelectVVHFatJets" = decide (k = 2) := by
        by_cases h2 : k = 2
        · subst h2
          have he2 : (lambdaCut "Exactly2FatJets" exactly2FatJetsEval
              (some "SemiMerged_SelectVVHFatJets") none).impl.eval s = .ok (s, true) := by
            simp [lambdaCut, exactly2FatJetsEval, hk]
          have hstep2 := runFrom_step_pass (vbsvvhjetsCutflow u) (f + 1) "Exactly2FatJets"
            "SemiMerged_SelectVVHFatJets"
            (lambdaCut "Exactly2FatJets" exactly2FatJetsEval
              (some "SemiMerged_SelectVVHFatJets") none)
            s s 1 hfind2 he2 rfl
          unfold runVVHFrom
          rw [show f + 3 = (f + 2) + 1 from rfl, hstep, visits_cons,
            show (("Exactly3FatJets" : String) == "SemiMerged_SelectVVHFatJets") = false from rfl,
            Bool.false_or, show f + 2 = (f + 1) + 1 from rfl, hstep2, visits_cons,
            show (("Exactly2FatJets" : String) == "SemiMerged_SelectVVHFatJets") = false from rfl,
            Bool.false_or, show decide ((2 : Int) = 2) = true from rfl]
          exact visits_start _ f _ s _ rfl
        · have hkb2 : (k == 2) = false := by simp [h2]
          have he2 : (lambdaCut "Exactly2FatJets" exactly2FatJetsEval
              (some "SemiMerged_SelectVVHFatJets") none).impl.eval s = .ok (s, false) := by
            simp [lambdaCut, exactly2FatJetsEval, hk, hkb2]
          have hstep2 := runFrom_fail_end (vbsvvhjetsCutflow u) (f + 1) "Exactly2FatJets"
            (lambdaCut "Exactly2FatJets" exactly2FatJetsEval
              (some "SemiMerged_SelectVVHFatJets") none)
            s s 1 hfind2 he2 rfl
          unfold runVVHFrom
          rw [show f + 3 = (f + 2) + 1 from rfl, hstep, visits_cons,
            show (("Exactly3FatJets" : String) == "SemiMerged_SelectVVHFatJets") = false from rfl,
            Bool.false_or, show f + 2 = (f + 1) + 1 from rfl, hstep2,
            show visits (⟨.reject, 1, [("Exactly2FatJets", NodeOut.fall)], s⟩ : RunResult St)
              "SemiMerged_SelectVVHFatJets" = false from rfl,
            decide_eq_false h2]
      refine ⟨?_, ?_, ?_, ?_⟩
      · rw [hAMv]; simp [h3]
      · rw [hE2v]; simp [h3]
      · intro hc
        have hcc := hc.1
        rw [hAMv] at hcc
        exact absurd hcc (by decide)
      · exact hSMv
  refine ⟨hpt, ?_⟩
  intro L hL
  refine ⟨?_, ?_, ?_⟩
  · refine List.countP_congr fun s hs => ?_
    obtain ⟨k, hk⟩ := hL s hs
    obtain ⟨hA, -, -, -⟩ := hpt s k hk
    rw [hA, hk]
    by_cases h3 : k = 3 <;> simp [h3]
  · refine List.countP_congr fun s hs => ?_
    obtain ⟨k, hk⟩ := hL s hs
    obtain ⟨-, hB, -, -⟩ := hpt s k hk
    rw [hB, hk]
    by_cases h3 : k = 3 <;> simp [h3]
  · refine List.countP_congr fun s hs => ?_
    obtain ⟨k, hk⟩ := hL s hs
    obtain ⟨-, -, -, hD⟩ := hpt s k hk
    rw [hD, hk]
    by_cases h2 : k = 2 <;> simp [h2]

/-- C5 counterexample: a record with `n_fatjets = 1` reaching
`Exactly3FatJets` enters the `Exactly2FatJets` sub-pipeline although its
`n_fatjets == 2` predicate does not hold, and enters neither channel body;
on the one-record batch the fail-side entry count is 1 while the number of
records with `n_fatjets = 2` is 0 — so the entry counts do not equal the
counts of records whose predicates `n_fatjets == 3` / `n_fatjets == 2` held,
and under the channel-body reading the record enters neither sub-pipeline
rather than exactly one. -/
theorem vbsvvhjets_channel_split_cex :
    visits (runVVHFrom uTriv 30 sOneFatJet) "Exactly2FatJets" = true ∧
    sOneFatJet.1.getLeaf "n_fatjets" = some (.vInt 1) ∧
    visits (runVVHFrom uTriv 30 sOneFatJet) "AllMerged_SelectVVHFatJets" = false ∧
    visits (runVVHFrom uTriv 30 sOneFatJet) "SemiMerged_SelectVVHFatJets" = false ∧
    ([sOneFatJet].countP fun s => visits (runVVHFrom uTriv 30 s) "Exactly2FatJets") = 1 ∧
    ([sOneFatJet].countP fun s => s.1.getLeaf "n_fatjets" == some (.vInt 2)) = 0 := by
  decide

/-- C5 witness: the channel-split theorem applied to the concrete record
with `n_fatjets = 1` (fuel 27 + 3 = 30). -/
theorem vbsvvhjets_channel_split_witness :
    visits (runVVHFrom uTriv (27 + 3) sOneFatJet) "Exactly2FatJets" =
      decide ((1 : Int) ≠ 3) ∧
    ([sOneFatJet].countP fun s => visits (runVVHFrom uTriv (27 + 3) s) "Exactly2FatJets") =
      ([sOneFatJet].countP fun s => !(s.1.getLeaf "n_fatjets" == some (.vInt 3))) :=
  ⟨((vbsvvhjets_channel_split uTriv 27).2.1 sOneFatJet 1 rfl).2.1,
   ((vbsvvhjets_channel_split uTriv 27).2.2 [sOneFatJet]
     (fun s hs => by rw [List.mem_singleton.mp hs]; exact ⟨1, rfl⟩)).2.1⟩

/-- C1 witness: the commit-iff-accept theorem applied to the concrete driver
state with the always-accept traversal. -/
theorem processEntry_commits_iff_accept_witness :
    (processEntry false 0 run0 0 dsInit).arbol.rows =
      dsInit.arbol.rows ++
        (if (run0 0 (dsInit.arbol.resetBranches, dsInit.globals.resetVars)).2
         then [((run0 0 (dsInit.arbol.resetBranches, dsInit.globals.resetVars)).1.1).currentRow]
         else []) :=
  processEntry_commits_iff_accept false 0 run0 0 dsInit rfl (fun _ _ => rfl)

/-- C2 witness: the reset theorem applied to a concrete write list and a
concrete previous-record state. -/
theorem stores_reset_before_run_witness :
    (applyWrites (vbswhInitBranches arbolEmpty) [("lep_pt", Val.vDouble 5)]).resetBranches =
      (vbswhInitBranches arbolEmpty).resetBranches ∧
    processEntry false 0 run0 0
        ⟨(vbswhInitBranches arbolEmpty).setLeaf "lep_pt" (Val.vDouble 5),
          globalsEmpty.setVal "lep_p4" (Val.vInt 1), false⟩ =
      processEntry false 0 run0 0 ⟨vbswhInitBranches arbolEmpty, globalsEmpty, false⟩ :=
  ⟨(stores_reset_before_run).2.2.1 arbolEmpty [("lep_pt", Val.vDouble 5)],
   (stores_reset_before_run).2.2.2 false 0 run0 0 (vbswhInitBranches arbolEmpty)
     globalsEmpty false "lep_pt" "lep_p4" (Val.vDouble 5) (Val.vInt 1) rfl⟩

/-- C3 witness: once the stop flag is up, the looper leaves a concrete state
untouched across a non-empty entry list. -/
theorem debug_stop_halts_loop_witness :
    runLooper false run0 [0, 1] 5 ⟨vbswhInitBranches arbolEmpty, globalsEmpty, true⟩ =
      ⟨vbswhInitBranches arbolEmpty, globalsEmpty, true⟩ :=
  (debug_stop_halts_loop).2 false run0 [0, 1] 5
    ⟨vbswhInitBranches arbolEmpty, globalsEmpty, true⟩ rfl

/-- C6 witness: two derivations of the same concrete traversal are forced to
the same result by determinism. -/
theorem runRel_deterministic_witness :
    (⟨.accept, 1 * (1 : ℚ), [("A", NodeOut.pass 1)], ()⟩ : RunResult Unit) =
      ⟨.accept, 1 * (1 : ℚ), [("A", NodeOut.pass 1)], ()⟩ := by
  have hf : cfUnit.find? "A" =
      some ⟨"A", ⟨fun s => .ok (s, true), fun _ => 1⟩, none, none⟩ := rfl
  have d : RunRel cfUnit "A" () 1
      (⟨.accept, 1 * (1 : ℚ), [("A", NodeOut.pass 1)], ()⟩ : RunResult Unit) :=
    RunRel.passEnd hf rfl rfl
  exact runRel_deterministic d d

/-- C8 witness: on an empty score list the cut faults with `out_of_range`
instead of returning `false`. -/
theorem selectHbbFatJet_never_false_witness :
    selectHbbFatJetEvaluate dR0 true ntEmpty sEmptyTags = .error "out_of_range" ∧
    selectHbbFatJetEvaluate dR0 true ntEmpty sEmptyTags ≠ .ok (sEmptyTags, false) :=
  ⟨(selectHbbFatJet_never_false dR0 true ntEmpty sEmptyTags).2 rfl,
   (selectHbbFatJet_never_false dR0 true ntEmpty sEmptyTags).1 sEmptyTags⟩

/-- C9 witness: the cut applied to a concrete store with leading score 4/5,
and its indifference to a concrete trailing-score overwrite. -/
theorem xwqq_reads_only_leading_score_witness :
    allMergedXWqqEval sLdScore = .ok (sLdScore, decide ((4 / 5 : ℚ) > 0.7)) ∧
    (allMergedXWqqEval (sLdScore.1.setLeaf "tr_vqqfatjet_score" (Val.vDouble 0),
        sLdScore.2)).map (·.2) =
      (allMergedXWqqEval sLdScore).map (·.2) :=
  ⟨(xwqq_reads_only_leading_score).1 sLdScore (4 / 5) rfl,
   (xwqq_reads_only_leading_score).2 sLdScore (Val.vDouble 0)⟩

/-- C10 witness: a simulated record with absolute pdg id 15 (a tau) passes
the trigger cut unconditionally. -/
theorem simulation_other_pdgid_passes_witness :
    passesLepTriggers ntSim false false false 15 = true :=
  (simulation_other_pdgid_passes ntSim false false false).1 15 rfl
    (by decide) (by decide)
